import Mathlib

/-!
Shallow embedding of the unscented Kalman filter in
`src/SFND_Unscented_Kalman_Filter/src/ukf.cpp`.

Modelling conventions:
* IEEE doubles are modelled as exact rationals (`ℚ`).
* The external mathematical routines the source calls (C library `sqrt`,
  `sin`, `cos`, `atan2`, and Eigen's `llt().matrixL()` and `.inverse()`)
  are not code of this repository; they are passed in as a parameter
  record `MathFns`, so every statement about the repository's own code is
  independent of (or explicit about) what those routines return.
* The constant `M_PI` is modelled by `mPi`, the exact rational value of
  the IEEE double `M_PI`.
* Vectors and matrices of the fixed dimensions 5, 7, 15, 2, 3 are
  functions out of `Fin n`; member fields of the `UKF` class become the
  fields of `UKFData`, and each void member function becomes a pure
  function `UKFData → UKFData`.
-/

/-- The exact rational value of the IEEE-754 double constant `M_PI`. -/
def mPi : ℚ := 884279719003555 / 281474976710656

/-- First angle-normalization loop of the source
(`while (a > M_PI) a -= 2.*M_PI;`), e.g. ukf.cpp lines 295-298. -/
def angleSubLoop (a : ℚ) : ℚ :=
  if h : mPi < a then angleSubLoop (a - 2 * mPi) else a
termination_by (⌈(a - mPi) / (2 * mPi)⌉).toNat
decreasing_by
  have hpi : (0 : ℚ) < mPi := by norm_num [mPi]
  have h2 : (0 : ℚ) < 2 * mPi := by linarith
  have key : (a - 2 * mPi - mPi) / (2 * mPi) = (a - mPi) / (2 * mPi) - 1 := by
    field_simp
    ring
  rw [key, Int.ceil_sub_one]
  have hpos : 0 < ⌈(a - mPi) / (2 * mPi)⌉ := by
    rw [Int.ceil_pos]
    exact div_pos (by linarith) h2
  omega

/-- Second angle-normalization loop of the source
(`while (a < -M_PI) a += 2.*M_PI;`), e.g. ukf.cpp lines 299-302. -/
def angleAddLoop (a : ℚ) : ℚ :=
  if h : a < -mPi then angleAddLoop (a + 2 * mPi) else a
termination_by (⌈(-mPi - a) / (2 * mPi)⌉).toNat
decreasing_by
  have hpi : (0 : ℚ) < mPi := by norm_num [mPi]
  have h2 : (0 : ℚ) < 2 * mPi := by linarith
  have key : (-mPi - (a + 2 * mPi)) / (2 * mPi) = (-mPi - a) / (2 * mPi) - 1 := by
    field_simp
    ring
  rw [key, Int.ceil_sub_one]
  have hpos : 0 < ⌈(-mPi - a) / (2 * mPi)⌉ := by
    rw [Int.ceil_pos]
    exact div_pos (by linarith) h2
  omega

/-- Both normalization loops in the order the source always runs them:
subtract loop, then add loop. -/
def normAngle (a : ℚ) : ℚ := angleAddLoop (angleSubLoop a)

/-- Process and measurement noise standard deviations fixed in the
constructor `UKF::UKF` (ukf.cpp lines 29-52). -/
def std_a : ℚ := 1.5

/-- Yaw-acceleration process noise standard deviation. -/
def std_yawdd : ℚ := 2.0

/-- Laser x-position measurement noise standard deviation. -/
def std_laspx : ℚ := 0.15

/-- Laser y-position measurement noise standard deviation. -/
def std_laspy : ℚ := 0.15

/-- Radar range measurement noise standard deviation. -/
def std_radr : ℚ := 0.3

/-- Radar bearing measurement noise standard deviation. -/
def std_radphi : ℚ := 0.03

/-- Radar range-rate measurement noise standard deviation. -/
def std_radrd : ℚ := 0.3

/-- Sigma point spreading parameter, `lambda_ = 3 - n_x_` with
`n_x_ = 5` (ukf.cpp line 80). -/
def lambda_ : ℚ := 3 - 5

/-- The weight vector set in `UKF::InitializeUKF` (ukf.cpp lines 173-181):
weight 0 is `lambda_ / (lambda_ + n_aug_)`, the other 14 are
`0.5 / (n_aug_ + lambda_)`, with `n_aug_ = 7`. -/
def initWeights (lam : ℚ) : Fin 15 → ℚ :=
  fun i => if i = 0 then lam / (lam + 7) else 0.5 / (7 + lam)

/-- The two supported values of `MeasurementPackage::sensor_type_`. -/
inductive SensorTy where
  | laser : SensorTy
  | radar : SensorTy

/-- A `MeasurementPackage`: sensor type, timestamp in integer microseconds,
raw measurement values (2 used for laser, 3 for radar). -/
structure MeasPackage where
  sensor_type : SensorTy
  timestamp : ℤ
  raw_measurements : Fin 3 → ℚ

/-- The external mathematical routines the source calls: C library
`sqrt`, `sin`, `cos`, `atan2`, Eigen's `llt().matrixL()` on the 7x7
augmented covariance, and Eigen's `.inverse()` on the 2x2 and 3x3
measurement covariances.  They are not code of this repository, so the
embedding takes them as parameters. -/
structure MathFns where
  sqrtF : ℚ → ℚ
  sinF : ℚ → ℚ
  cosF : ℚ → ℚ
  atan2F : ℚ → ℚ → ℚ
  lltF : (Fin 7 → Fin 7 → ℚ) → (Fin 7 → Fin 7 → ℚ)
  inv2F : (Fin 2 → Fin 2 → ℚ) → (Fin 2 → Fin 2 → ℚ)
  inv3F : (Fin 3 → Fin 3 → ℚ) → (Fin 3 → Fin 3 → ℚ)

/-- The member fields of class `UKF` that the processing functions read or
write (the fixed scalars above stay global constants). -/
structure UKFData where
  is_initialized : Bool
  use_laser : Bool
  use_radar : Bool
  x : Fin 5 → ℚ
  P : Fin 5 → Fin 5 → ℚ
  time_us : ℤ
  Xsig_aug : Fin 7 → Fin 15 → ℚ
  Xsig_pred : Fin 5 → Fin 15 → ℚ
  weights : Fin 15 → ℚ
  z_pred_r : Fin 3 → ℚ
  S_r : Fin 3 → Fin 3 → ℚ
  Zsig_radar : Fin 3 → Fin 15 → ℚ
  Zsig_lidar : Fin 2 → Fin 15 → ℚ
  z_pred_l : Fin 2 → ℚ
  S_l : Fin 2 → Fin 2 → ℚ

/-- The state after the constructor `UKF::UKF`:
`is_initialized_ = false`, `use_laser_ = true`, `use_radar_ = true`;
the Eigen matrices are allocated but not value-initialized, modelled
as zero. -/
def mkUKF : UKFData where
  is_initialized := false
  use_laser := true
  use_radar := true
  x := fun _ => 0
  P := fun _ _ => 0
  time_us := 0
  Xsig_aug := fun _ _ => 0
  Xsig_pred := fun _ _ => 0
  weights := fun _ => 0
  z_pred_r := fun _ => 0
  S_r := fun _ _ => 0
  Zsig_radar := fun _ _ => 0
  Zsig_lidar := fun _ _ => 0
  z_pred_l := fun _ => 0
  S_l := fun _ _ => 0

/-- `UKF::InitializeUKF` (ukf.cpp lines 141-182): sets the fixed prior
covariance, the position from the first measurement (laser directly,
radar by polar-to-Cartesian conversion), zero velocity, heading and yaw
rate, the first timestamp and the weight vector. -/
def initializeUKF (fns : MathFns) (m : MeasPackage) (s : UKFData) : UKFData :=
  let pxpy : ℚ × ℚ :=
    match m.sensor_type with
    | SensorTy.laser => (m.raw_measurements 0, m.raw_measurements 1)
    | SensorTy.radar =>
        let rho := m.raw_measurements 0
        let phi := m.raw_measurements 1
        (fns.cosF phi * rho, fns.sinF phi * rho)
  { s with
    is_initialized := true
    time_us := m.timestamp
    P := ![![1, 0, 0, 0, 0],
           ![0, 1, 0, 0, 0],
           ![0, 0, 1, 0, 0],
           ![0, 0, 0, 0.5, 0],
           ![0, 0, 0, 0, 0.5]]
    x := ![pxpy.1, pxpy.2, 0, 0, 0]
    weights := initWeights lambda_ }

/-- The elapsed time in seconds computed in `UKF::ProcessMeasurement`
(ukf.cpp line 122): `(meas_package.timestamp_ - time_us_) / 1000000.0`,
with no clamping. -/
def elapsedSec (t_now t_prev : ℤ) : ℚ := ((t_now - t_prev : ℤ) : ℚ) / 1000000

/-- `UKF::GenerateAugmentedSigmaPoints` (ukf.cpp lines 196-224). -/
def generateAugmentedSigmaPoints (fns : MathFns) (s : UKFData) : UKFData :=
  let x_aug : Fin 7 → ℚ := fun i => if h : i.val < 5 then s.x ⟨i.val, h⟩ else 0
  let P_aug : Fin 7 → Fin 7 → ℚ := fun i j =>
    if hi : i.val < 5 then
      (if hj : j.val < 5 then s.P ⟨i.val, hi⟩ ⟨j.val, hj⟩ else 0)
    else if i.val = 5 ∧ j.val = 5 then std_a * std_a
    else if i.val = 6 ∧ j.val = 6 then std_yawdd * std_yawdd
    else 0
  let L := fns.lltF P_aug
  let Xa : Fin 7 → Fin 15 → ℚ := fun r c =>
    if c.val = 0 then x_aug r
    else if h : c.val < 8 then
      x_aug r + fns.sqrtF (lambda_ + 7) * L r ⟨c.val - 1, by omega⟩
    else
      x_aug r - fns.sqrtF (lambda_ + 7) * L r ⟨c.val - 8, by have := c.isLt; omega⟩
  { s with Xsig_aug := Xa }

/-- The per-point CTRV propagation inside `UKF::SigmaPointPrediction`
(ukf.cpp lines 233-266): general branch when `fabs(yawd) > 0.001`,
singularity-guard branch otherwise, then the process-noise additions. -/
def ctrvPoint (fns : MathFns) (delta_t : ℚ) (p : Fin 7 → ℚ) : Fin 5 → ℚ :=
  let p_x := p 0
  let p_y := p 1
  let v := p 2
  let yaw := p 3
  let yawd := p 4
  let nu_a := p 5
  let nu_yawdd := p 6
  let px_p :=
    if |yawd| > 0.001 then
      p_x + v / yawd * (fns.sinF (yaw + yawd * delta_t) - fns.sinF yaw)
    else
      p_x + v * delta_t * fns.cosF yaw
  let py_p :=
    if |yawd| > 0.001 then
      p_y + v / yawd * (fns.cosF yaw - fns.cosF (yaw + yawd * delta_t))
    else
      p_y + v * delta_t * fns.sinF yaw
  let v_p := v
  let yaw_p := yaw + yawd * delta_t
  let yawd_p := yawd
  let px_n := px_p + 0.5 * nu_a * delta_t * delta_t * fns.cosF yaw
  let py_n := py_p + 0.5 * nu_a * delta_t * delta_t * fns.sinF yaw
  let v_n := v_p + nu_a * delta_t
  let yaw_n := yaw_p + 0.5 * nu_yawdd * delta_t * delta_t
  let yawd_n := yawd_p + nu_yawdd * delta_t
  ![px_n, py_n, v_n, yaw_n, yawd_n]

/-- `UKF::SigmaPointPrediction` (ukf.cpp lines 226-275). -/
def sigmaPointPrediction (fns : MathFns) (delta_t : ℚ) (s : UKFData) : UKFData :=
  { s with Xsig_pred := fun r c => ctrvPoint fns delta_t (fun i => s.Xsig_aug i c) r }

/-- `UKF::PredictMeanAndCovariance` (ukf.cpp lines 277-306): weighted mean,
then covariance of the deviations with the heading component (index 3)
run through the two angle loops. -/
def predictMeanAndCovariance (s : UKFData) : UKFData :=
  let xNew : Fin 5 → ℚ := fun r => ∑ i : Fin 15, s.weights i * s.Xsig_pred r i
  let PNew : Fin 5 → Fin 5 → ℚ := fun r c =>
    ∑ i : Fin 15,
      let x_diff : Fin 5 → ℚ := fun k =>
        if k.val = 3 then normAngle (s.Xsig_pred k i - xNew k) else s.Xsig_pred k i - xNew k
      s.weights i * (x_diff r * x_diff c)
  { s with x := xNew, P := PNew }

/-- `UKF::Prediction` (ukf.cpp lines 184-194). -/
def predictionUKF (fns : MathFns) (delta_t : ℚ) (s : UKFData) : UKFData :=
  predictMeanAndCovariance (sigmaPointPrediction fns delta_t (generateAugmentedSigmaPoints fns s))

/-- The divisor of the radar range-rate projection (ukf.cpp line 327):
exactly `sqrt(p_x * p_x + p_y * p_y)`, with no epsilon floor. -/
def radarDivisor (fns : MathFns) (p_x p_y : ℚ) : ℚ :=
  fns.sqrtF (p_x * p_x + p_y * p_y)

/-- The radar measurement projection of one predicted sigma point
(ukf.cpp lines 316-327): range, bearing, range rate. -/
def radarProject (fns : MathFns) (col : Fin 5 → ℚ) : Fin 3 → ℚ :=
  let p_x := col 0
  let p_y := col 1
  let v := col 2
  let yaw := col 3
  let v1 := fns.cosF yaw * v
  let v2 := fns.sinF yaw * v
  ![fns.sqrtF (p_x * p_x + p_y * p_y),
    fns.atan2F p_y p_x,
    (p_x * v1 + p_y * v2) / radarDivisor fns p_x p_y]

/-- `UKF::PredictRadarMeasurement` (ukf.cpp lines 308-363). -/
def predictRadarMeasurement (fns : MathFns) (s : UKFData) : UKFData :=
  let Zs : Fin 3 → Fin 15 → ℚ := fun r c => radarProject fns (fun k => s.Xsig_pred k c) r
  let zp : Fin 3 → ℚ := fun r => ∑ i : Fin 15, s.weights i * Zs r i
  let Rm : Fin 3 → Fin 3 → ℚ :=
    ![![std_radr * std_radr, 0, 0],
      ![0, std_radphi * std_radphi, 0],
      ![0, 0, std_radrd * std_radrd]]
  let Snew : Fin 3 → Fin 3 → ℚ := fun r c =>
    (∑ i : Fin 15,
      let z_diff : Fin 3 → ℚ := fun k =>
        if k.val = 1 then normAngle (Zs k i - zp k) else Zs k i - zp k
      s.weights i * (z_diff r * z_diff c)) + Rm r c
  { s with Zsig_radar := Zs, z_pred_r := zp, S_r := Snew }

/-- `UKF::PredictLidarMeasurement` (ukf.cpp lines 365-404): position
projection, weighted mean, covariance of the raw residuals plus noise. -/
def predictLidarMeasurement (s : UKFData) : UKFData :=
  let Zs : Fin 2 → Fin 15 → ℚ := fun r c =>
    if r.val = 0 then s.Xsig_pred 0 c else s.Xsig_pred 1 c
  let zp : Fin 2 → ℚ := fun r => ∑ i : Fin 15, s.weights i * Zs r i
  let Rm : Fin 2 → Fin 2 → ℚ :=
    ![![std_laspx * std_laspx, 0],
      ![0, std_laspy * std_laspy]]
  let Snew : Fin 2 → Fin 2 → ℚ := fun r c =>
    (∑ i : Fin 15, s.weights i * ((Zs r i - zp r) * (Zs c i - zp c))) + Rm r c
  { s with Zsig_lidar := Zs, z_pred_l := zp, S_l := Snew }

/-- The cross-correlation matrix of `UKF::UpdateLidar` (ukf.cpp lines
421-432): plain weighted sum of outer products of the raw state and
measurement deviations; no angle normalization appears in this loop. -/
def lidarCrossCorr (w : Fin 15 → ℚ) (Xp : Fin 5 → Fin 15 → ℚ) (x : Fin 5 → ℚ)
    (Zs : Fin 2 → Fin 15 → ℚ) (zp : Fin 2 → ℚ) : Fin 5 → Fin 2 → ℚ :=
  fun r c => ∑ i : Fin 15, w i * ((Xp r i - x r) * (Zs c i - zp c))

/-- The cross-correlation matrix of `UKF::UpdateRadar` (ukf.cpp lines
465-495): the bearing residual (index 1) and the heading deviation
(index 3) are run through the two angle loops before the outer product. -/
def radarCrossCorr (w : Fin 15 → ℚ) (Xp : Fin 5 → Fin 15 → ℚ) (x : Fin 5 → ℚ)
    (Zs : Fin 3 → Fin 15 → ℚ) (zp : Fin 3 → ℚ) : Fin 5 → Fin 3 → ℚ :=
  fun r c => ∑ i : Fin 15,
    let z_diff : Fin 3 → ℚ := fun k =>
      if k.val = 1 then normAngle (Zs k i - zp k) else Zs k i - zp k
    let x_diff : Fin 5 → ℚ := fun k =>
      if k.val = 3 then normAngle (Xp k i - x k) else Xp k i - x k
    w i * (x_diff r * z_diff c)

/-- `UKF::UpdateLidar` (ukf.cpp lines 405-443): gain from the
cross-correlation and the inverse of `S_l_`, then
`x_ = x_ + K * z_diff` and `P_ = P_ - K * S_l_ * K^T`, with no
re-normalization of the heading component of `x_`. -/
def updateLidar (fns : MathFns) (m : MeasPackage) (s : UKFData) : UKFData :=
  let z : Fin 2 → ℚ := ![m.raw_measurements 0, m.raw_measurements 1]
  let Tc := lidarCrossCorr s.weights s.Xsig_pred s.x s.Zsig_lidar s.z_pred_l
  let Sinv := fns.inv2F s.S_l
  let K : Fin 5 → Fin 2 → ℚ := fun r c => ∑ k : Fin 2, Tc r k * Sinv k c
  let z_diff : Fin 2 → ℚ := fun k => z k - s.z_pred_l k
  let xNew : Fin 5 → ℚ := fun r => s.x r + ∑ k : Fin 2, K r k * z_diff k
  let PNew : Fin 5 → Fin 5 → ℚ := fun r c =>
    s.P r c - ∑ k : Fin 2, ∑ j : Fin 2, K r k * s.S_l k j * K c j
  { s with x := xNew, P := PNew }

/-- `UKF::UpdateRadar` (ukf.cpp lines 445-516): gain from the
cross-correlation and the inverse of `S_r_`; the innovation's bearing
component is run through the angle loops; then `x_ = x_ + K * z_diff`
and `P_ = P_ - K * S_r_ * K^T`, with no re-normalization of the heading
component of `x_`. -/
def updateRadar (fns : MathFns) (m : MeasPackage) (s : UKFData) : UKFData :=
  let z : Fin 3 → ℚ :=
    ![m.raw_measurements 0, m.raw_measurements 1, m.raw_measurements 2]
  let Tc := radarCrossCorr s.weights s.Xsig_pred s.x s.Zsig_radar s.z_pred_r
  let Sinv := fns.inv3F s.S_r
  let K : Fin 5 → Fin 3 → ℚ := fun r c => ∑ k : Fin 3, Tc r k * Sinv k c
  let z_diff : Fin 3 → ℚ := fun k =>
    if k.val = 1 then normAngle (z k - s.z_pred_r k) else z k - s.z_pred_r k
  let xNew : Fin 5 → ℚ := fun r => s.x r + ∑ k : Fin 3, K r k * z_diff k
  let PNew : Fin 5 → Fin 5 → ℚ := fun r c =>
    s.P r c - ∑ k : Fin 3, ∑ j : Fin 3, K r k * s.S_r k j * K c j
  { s with x := xNew, P := PNew }

/-- `UKF::ProcessMeasurement` (ukf.cpp lines 109-139): initialization on
the first call, otherwise the raw elapsed time is computed (no clamp),
`Prediction` always runs, and the update is dispatched on the sensor
type alone (the `use_laser_` / `use_radar_` flags are not consulted). -/
def processMeasurement (fns : MathFns) (m : MeasPackage) (s : UKFData) : UKFData :=
  if s.is_initialized = false then
    initializeUKF fns m s
  else
    let delta_t := elapsedSec m.timestamp s.time_us
    let s1 := { s with time_us := m.timestamp }
    let s2 := predictionUKF fns delta_t s1
    match m.sensor_type with
    | SensorTy.laser => updateLidar fns m (predictLidarMeasurement s2)
    | SensorTy.radar => updateRadar fns m (predictRadarMeasurement fns s2)

/-- 3x3 matrix product of the function-matrix representation (used to state
non-invertibility of a measurement covariance). -/
def matMul3 (A B : Fin 3 → Fin 3 → ℚ) : Fin 3 → Fin 3 → ℚ :=
  fun r c => ∑ k : Fin 3, A r k * B k c

/-- The 3x3 identity in the function-matrix representation. -/
def idMat3 : Fin 3 → Fin 3 → ℚ := fun r c => if r = c then 1 else 0

/-- Cross-correlation as the specification words it, for the lidar update
(refinement comparison definition): the state deviation's heading
component (index 3) is angle-normalized before the weighted outer
product; the lidar measurement has no angular component. -/
def specLidarCrossCorr (w : Fin 15 → ℚ) (Xp : Fin 5 → Fin 15 → ℚ) (x : Fin 5 → ℚ)
    (Zs : Fin 2 → Fin 15 → ℚ) (zp : Fin 2 → ℚ) : Fin 5 → Fin 2 → ℚ :=
  fun r c => ∑ i : Fin 15,
    w i * ((if r.val = 3 then normAngle (Xp r i - x r) else Xp r i - x r) * (Zs c i - zp c))

/-- Cross-correlation as the specification words it, for the radar update
(refinement comparison definition): the state deviation's heading
component (index 3) and the measurement deviation's angular component
(index 1) are angle-normalized before the weighted outer product. -/
def specRadarCrossCorr (w : Fin 15 → ℚ) (Xp : Fin 5 → Fin 15 → ℚ) (x : Fin 5 → ℚ)
    (Zs : Fin 3 → Fin 15 → ℚ) (zp : Fin 3 → ℚ) : Fin 5 → Fin 3 → ℚ :=
  fun r c => ∑ i : Fin 15,
    w i * ((if r.val = 3 then normAngle (Xp r i - x r) else Xp r i - x r) *
           (if c.val = 1 then normAngle (Zs c i - zp c) else Zs c i - zp c))

/-- A concrete instantiation of the external routines, used to evaluate the
embedded code at concrete inputs: cosine constantly 1 and sine constantly 0
(exact at angle 0), all matrix routines constantly zero. -/
def fnsA : MathFns where
  sqrtF := fun _ => 0
  sinF := fun _ => 0
  cosF := fun _ => 1
  atan2F := fun _ _ => 0
  lltF := fun _ => fun _ _ => 0
  inv2F := fun _ => fun _ _ => 0
  inv3F := fun _ => fun _ _ => 0

/-- Like `fnsA` but the 3x3 inverse returns an all-ones matrix, standing for
the arbitrary values Eigen's unchecked `.inverse()` produces on a singular
argument. -/
def fnsC : MathFns where
  sqrtF := fun _ => 0
  sinF := fun _ => 0
  cosF := fun _ => 1
  atan2F := fun _ _ => 0
  lltF := fun _ => fun _ _ => 0
  inv2F := fun _ => fun _ _ => 0
  inv3F := fun _ => fun _ _ => 1

/-- An initialized filter state at previous timestamp 2000000 microseconds,
position at the origin, unit speed, zero heading and yaw rate. -/
def sA : UKFData :=
  { mkUKF with
    is_initialized := true
    x := fun i => if i.val = 2 then 1 else 0
    time_us := 2000000
    weights := initWeights lambda_ }

/-- A laser measurement whose timestamp, 1000000 microseconds, precedes the
previous timestamp of `sA`; its position reading coincides with where the
backward prediction puts the object, so the update leaves `x` unchanged. -/
def mStale : MeasPackage where
  sensor_type := SensorTy.laser
  timestamp := 1000000
  raw_measurements := ![-1, 0, 0]

/-- The state `sA` with the previous timestamp moved to 0 and with
`use_laser` false. -/
def sE : UKFData := { sA with time_us := 0, use_laser := false }

/-- A laser measurement one second after the previous timestamp of `sE`,
whose position reading coincides with the forward prediction. -/
def mE : MeasPackage where
  sensor_type := SensorTy.laser
  timestamp := 1000000
  raw_measurements := ![1, 0, 0]

/-- An initialized filter state whose predicted measurement covariance
`S_r` is the zero matrix (singular), with one nonzero predicted sigma
point and one nonzero radar-space sigma point. -/
def sC : UKFData :=
  { mkUKF with
    is_initialized := true
    Xsig_pred := fun r c => if r.val = 0 ∧ c.val = 0 then 1 else 0
    weights := initWeights lambda_
    Zsig_radar := fun r c => if r.val = 0 ∧ c.val = 0 then 1 else 0 }

/-- A radar measurement with unit range, zero bearing and range rate. -/
def mRadC : MeasPackage where
  sensor_type := SensorTy.radar
  timestamp := 0
  raw_measurements := ![1, 0, 0]

/-- An initialized filter state whose heading estimate is 10 radians and
whose predicted sigma points all equal the state, so that a lidar update
with zero innovation leaves `x` unchanged. -/
def sD : UKFData :=
  { mkUKF with
    is_initialized := true
    x := fun i => if i.val = 3 then 10 else 0
    Xsig_pred := fun r _ => if r.val = 3 then 10 else 0
    weights := initWeights lambda_ }

/-- A laser measurement reading position (0, 0). -/
def mD : MeasPackage where
  sensor_type := SensorTy.laser
  timestamp := 0
  raw_measurements := ![0, 0, 0]

/-- Concrete weight vector for the cross-correlation counterexample: the
code's own weights. -/
def wC9 : Fin 15 → ℚ := initWeights lambda_

/-- Concrete predicted sigma points whose first column has heading
deviation 10 from the zero state mean. -/
def XpC9 : Fin 5 → Fin 15 → ℚ := fun r c => if r.val = 3 ∧ c.val = 0 then 10 else 0

/-- Concrete zero state mean for the cross-correlation counterexample. -/
def xC9 : Fin 5 → ℚ := fun _ => 0

/-- Concrete lidar-space sigma points whose first column is (1, 0). -/
def ZsC9 : Fin 2 → Fin 15 → ℚ := fun r c => if r.val = 0 ∧ c.val = 0 then 1 else 0

/-- Concrete zero predicted lidar measurement mean. -/
def zpC9 : Fin 2 → ℚ := fun _ => 0

/-- The augmented state column used by the concrete prediction evaluations:
position at the origin, unit speed, zero heading, yaw rate and noise. -/
def colA : Fin 7 → ℚ := fun i => if i.val = 2 then 1 else 0

/-- All-zero weight vector (concrete instantiation input). -/
def zeroW15 : Fin 15 → ℚ := fun _ => 0

/-- All-zero predicted sigma point matrix (concrete instantiation input). -/
def zeroXp : Fin 5 → Fin 15 → ℚ := fun _ _ => 0

/-- All-zero state mean (concrete instantiation input). -/
def zeroX5 : Fin 5 → ℚ := fun _ => 0

/-- All-zero lidar measurement sigma points (concrete instantiation input). -/
def zeroZs2 : Fin 2 → Fin 15 → ℚ := fun _ _ => 0

/-- All-zero predicted lidar measurement mean (concrete instantiation input). -/
def zeroZp2 : Fin 2 → ℚ := fun _ => 0

/-- All-zero radar measurement sigma points (concrete instantiation input). -/
def zeroZs3 : Fin 3 → Fin 15 → ℚ := fun _ _ => 0

/-- All-zero predicted radar measurement mean (concrete instantiation input). -/
def zeroZp3 : Fin 3 → ℚ := fun _ => 0

theorem angleSubLoop_le (a : ℚ) : angleSubLoop a ≤ mPi := by
  induction a using angleSubLoop.induct with
  | case1 a h ih =>
    rw [angleSubLoop, dif_pos h]
    exact ih
  | case2 a h =>
    rw [angleSubLoop, dif_neg h]
    exact le_of_not_lt h

theorem angleAddLoop_ge (a : ℚ) : -mPi ≤ angleAddLoop a := by
  induction a using angleAddLoop.induct with
  | case1 a h ih =>
    rw [angleAddLoop, dif_pos h]
    exact ih
  | case2 a h =>
    rw [angleAddLoop, dif_neg h]
    exact le_of_not_lt h

theorem angleAddLoop_le (a : ℚ) : a ≤ mPi → angleAddLoop a ≤ mPi := by
  induction a using angleAddLoop.induct with
  | case1 a h ih =>
    intro _
    rw [angleAddLoop, dif_pos h]
    exact ih (by linarith)
  | case2 a h =>
    intro ha
    rw [angleAddLoop, dif_neg h]
    exact ha

theorem angleSubLoop_id (a : ℚ) (h : a ≤ mPi) : angleSubLoop a = a := by
  rw [angleSubLoop, dif_neg (not_lt.mpr h)]

theorem angleAddLoop_id (a : ℚ) (h : -mPi ≤ a) : angleAddLoop a = a := by
  rw [angleAddLoop, dif_neg (not_lt.mpr h)]

theorem normAngle_id (a : ℚ) (h1 : -mPi ≤ a) (h2 : a ≤ mPi) : normAngle a = a := by
  rw [normAngle, angleSubLoop_id a h2, angleAddLoop_id a h1]

theorem normAngle_zero : normAngle 0 = 0 := by
  have h1 : -mPi ≤ (0 : ℚ) := by norm_num [mPi]
  have h2 : (0 : ℚ) ≤ mPi := by norm_num [mPi]
  exact normAngle_id 0 h1 h2

/-- C10: for every (finite) rational input, the iterative angle
normalization of the source (subtract loop then add loop, both total
functions of the embedding, so terminating on every input) yields a value
in the closed interval [-pi, pi]. -/
theorem C10_angle_loop_range (a : ℚ) :
    -mPi ≤ normAngle a ∧ normAngle a ≤ mPi :=
  ⟨angleAddLoop_ge (angleSubLoop a), angleAddLoop_le (angleSubLoop a) (angleSubLoop_le a)⟩

/-- C10 witness: the normalization applied at the concrete input 10. -/
theorem C10_angle_loop_range_w : -mPi ≤ normAngle 10 ∧ normAngle 10 ≤ mPi :=
  C10_angle_loop_range 10

theorem initWeights_zero (lam : ℚ) : initWeights lam 0 = lam / (lam + 7) := by
  simp [initWeights]

theorem initWeights_succ (lam : ℚ) (i : Fin 14) :
    initWeights lam i.succ = 0.5 / (7 + lam) := by
  simp [initWeights, Fin.succ_ne_zero]

theorem ctrvPoint_zero (fns : MathFns) (dt : ℚ) (p : Fin 7 → ℚ) :
    ctrvPoint fns dt p 0 =
      (if |p 4| > 0.001 then
        p 0 + p 2 / p 4 * (fns.sinF (p 3 + p 4 * dt) - fns.sinF (p 3))
      else
        p 0 + p 2 * dt * fns.cosF (p 3)) + 0.5 * p 5 * dt * dt * fns.cosF (p 3) := rfl

theorem ctrvPoint_one (fns : MathFns) (dt : ℚ) (p : Fin 7 → ℚ) :
    ctrvPoint fns dt p 1 =
      (if |p 4| > 0.001 then
        p 1 + p 2 / p 4 * (fns.cosF (p 3) - fns.cosF (p 3 + p 4 * dt))
      else
        p 1 + p 2 * dt * fns.sinF (p 3)) + 0.5 * p 5 * dt * dt * fns.sinF (p 3) := rfl

theorem ctrvPoint_two (fns : MathFns) (dt : ℚ) (p : Fin 7 → ℚ) :
    ctrvPoint fns dt p 2 = p 2 + p 5 * dt := rfl

theorem ctrvPoint_three (fns : MathFns) (dt : ℚ) (p : Fin 7 → ℚ) :
    ctrvPoint fns dt p 3 = p 3 + p 4 * dt + 0.5 * p 6 * dt * dt := rfl

theorem ctrvPoint_four (fns : MathFns) (dt : ℚ) (p : Fin 7 → ℚ) :
    ctrvPoint fns dt p 4 = p 4 + p 6 * dt := rfl

theorem predictLidar_x (s : UKFData) : (predictLidarMeasurement s).x = s.x := rfl

theorem sigPred_Xsig_pred (fns : MathFns) (dt : ℚ) (s : UKFData) :
    (sigmaPointPrediction fns dt s).Xsig_pred
      = fun r c => ctrvPoint fns dt (fun i => s.Xsig_aug i c) r := rfl

theorem sigPred_weights (fns : MathFns) (dt : ℚ) (s : UKFData) :
    (sigmaPointPrediction fns dt s).weights = s.weights := rfl

theorem genAug_weights (fns : MathFns) (s : UKFData) :
    (generateAugmentedSigmaPoints fns s).weights = s.weights := rfl

theorem predictMC_x (s : UKFData) :
    (predictMeanAndCovariance s).x
      = fun r => ∑ i : Fin 15, s.weights i * s.Xsig_pred r i := rfl

theorem updateLidar_x (fns : MathFns) (m : MeasPackage) (s : UKFData) :
    (updateLidar fns m s).x = fun r => s.x r +
      ∑ k : Fin 2,
        (∑ j : Fin 2,
          lidarCrossCorr s.weights s.Xsig_pred s.x s.Zsig_lidar s.z_pred_l r j *
            fns.inv2F s.S_l j k) *
        ((![m.raw_measurements 0, m.raw_measurements 1] : Fin 2 → ℚ) k - s.z_pred_l k) := rfl

theorem updateLidar_fnsA_x (m : MeasPackage) (s : UKFData) :
    (updateLidar fnsA m s).x = s.x := by
  funext r
  rw [updateLidar_x]
  simp [fnsA]

theorem sum_initWeights (lam : ℚ) (h : lam + 7 ≠ 0) :
    ∑ i : Fin 15, initWeights lam i = 1 := by
  have h2 : (7 : ℚ) + lam ≠ 0 := fun hc => h (by linarith)
  norm_num [Fin.sum_univ_succ, initWeights_zero, initWeights_succ]
  field_simp
  ring

theorem genAugA_Xsig_aug (s : UKFData)
    (hx : s.x = fun i => if i.val = 2 then 1 else 0) :
    (generateAugmentedSigmaPoints fnsA s).Xsig_aug = fun i _ => colA i := by
  funext i c
  simp only [generateAugmentedSigmaPoints, fnsA, hx, colA]
  norm_num
  rcases i with ⟨iv, hi⟩
  by_cases h5 : iv < 5
  · rw [dif_pos h5]
  · rw [dif_neg h5]
    have hne : ¬ (⟨iv, hi⟩ : Fin 7).val = 2 := by
      simp only [Fin.val_mk]
      omega
    rw [if_neg hne]

theorem ctrvA (fns0 : MathFns) (dt : ℚ) (hcos : fns0.cosF 0 = 1) (hsin : fns0.sinF 0 = 0) :
    ∀ r : Fin 5, ctrvPoint fns0 dt colA r = (if r.val = 0 then dt else if r.val = 2 then 1 else 0) := by
  have c0 : colA 0 = 0 := rfl
  have c1 : colA 1 = 0 := rfl
  have c2 : colA 2 = 1 := rfl
  have c3 : colA 3 = 0 := rfl
  have c4 : colA 4 = 0 := rfl
  have c5 : colA 5 = 0 := rfl
  have c6 : colA 6 = 0 := rfl
  intro r
  rcases r with ⟨rv, hr⟩
  interval_cases rv
  · show ctrvPoint fns0 dt colA 0 = dt
    rw [ctrvPoint_zero]
    rw [c0, c2, c3, c4, c5]
    norm_num [hcos]
  · show ctrvPoint fns0 dt colA 1 = 0
    rw [ctrvPoint_one]
    rw [c1, c2, c3, c4, c5]
    norm_num [hsin]
  · show ctrvPoint fns0 dt colA 2 = 1
    rw [ctrvPoint_two]
    rw [c2, c5]
    norm_num
  · show ctrvPoint fns0 dt colA 3 = 0
    rw [ctrvPoint_three]
    rw [c3, c4, c6]
    norm_num
  · show ctrvPoint fns0 dt colA 4 = 0
    rw [ctrvPoint_four]
    rw [c4, c6]
    norm_num

theorem predictionA (dt : ℚ) (s : UKFData)
    (hx : s.x = fun i => if i.val = 2 then 1 else 0) (hw : s.weights = initWeights lambda_) :
    (predictionUKF fnsA dt s).x
      = fun r => if r.val = 0 then dt else if r.val = 2 then 1 else 0 := by
  rw [predictionUKF, predictMC_x]
  rw [sigPred_weights, genAug_weights, hw]
  rw [sigPred_Xsig_pred, genAugA_Xsig_aug s hx]
  have hc : ∀ r : Fin 5, ctrvPoint fnsA dt (fun i => colA i) r
      = (if r.val = 0 then dt else if r.val = 2 then 1 else 0) := ctrvA fnsA dt rfl rfl
  funext r
  simp only [hc]
  rw [← Finset.sum_mul, sum_initWeights lambda_ (by norm_num [lambda_]), one_mul]

theorem processA (m : MeasPackage) (s : UKFData) (hi : s.is_initialized = true)
    (hsen : m.sensor_type = SensorTy.laser)
    (hx : s.x = fun i => if i.val = 2 then 1 else 0)
    (hw : s.weights = initWeights lambda_) :
    (processMeasurement fnsA m s).x
      = fun r => if r.val = 0 then elapsedSec m.timestamp s.time_us
                 else if r.val = 2 then 1 else 0 := by
  rw [processMeasurement, hi]
  norm_num
  rw [hsen]
  rw [updateLidar_fnsA_x, predictLidar_x]
  exact predictionA (elapsedSec m.timestamp s.time_us) _ hx hw

/-- C1: evaluating the code at a measurement whose timestamp precedes the
previous one: the elapsed time is computed as the raw difference -1 s with
no clamping, Prediction still runs, and the position estimate propagates
backward in time (from 0 to -1), contradicting the claimed
clamp-to-zero-and-update-only policy. -/
theorem C1_timestamp_not_clamped :
    mStale.timestamp < sA.time_us
  ∧ elapsedSec mStale.timestamp sA.time_us = -1
  ∧ sA.x 0 = 0
  ∧ (processMeasurement fnsA mStale sA).x 0 = -1 := by
  refine ⟨by norm_num [mStale, sA, mkUKF], ?_, rfl, ?_⟩
  · norm_num [elapsedSec, mStale, sA, mkUKF]
  · rw [processA mStale sA rfl rfl (by rw [sA]) (by rw [sA])]
    norm_num [elapsedSec, mStale, sA, mkUKF]

/-- C5 counterexample: with use_laser = false, a LASER measurement is still
fully processed: the position estimate changes from 0 to 1, refuting the
claim that x and P are left unchanged when the flag is false. -/
theorem C5_disabled_laser_still_processed :
    sE.use_laser = false
  ∧ sE.x 0 = 0
  ∧ (processMeasurement fnsA mE sE).x 0 = 1 := by
  refine ⟨rfl, rfl, ?_⟩
  rw [processA mE sE rfl rfl (by rw [sE, sA]) (by rw [sE, sA])]
  norm_num [elapsedSec, mE, sE, sA, mkUKF]

/-- C4: a lidar update with prior heading 10 rad and zero innovation (the
measurement coincides with the predicted measurement) leaves the heading
component of x at 10 > pi, whatever the external matrix routines return:
the update performs no re-normalization of the heading of x, so the
heading does not stay in (-pi, pi]. -/
theorem C4_heading_not_renormalized :
    sD.x 3 = 10 ∧ (∀ fns : MathFns, (updateLidar fns mD sD).x 3 = 10) ∧ mPi < 10 := by
  refine ⟨rfl, ?_, by norm_num [mPi]⟩
  intro fns
  rw [updateLidar_x]
  norm_num [mD, sD, mkUKF, Fin.sum_univ_succ]
  exact rfl

theorem updateRadar_x (fns : MathFns) (m : MeasPackage) (s : UKFData) :
    (updateRadar fns m s).x = fun r => s.x r +
      ∑ k : Fin 3,
        (∑ j : Fin 3,
          radarCrossCorr s.weights s.Xsig_pred s.x s.Zsig_radar s.z_pred_r r j *
            fns.inv3F s.S_r j k) *
        (if k.val = 1 then
          normAngle ((![m.raw_measurements 0, m.raw_measurements 1, m.raw_measurements 2] : Fin 3 → ℚ) k - s.z_pred_r k)
        else (![m.raw_measurements 0, m.raw_measurements 1, m.raw_measurements 2] : Fin 3 → ℚ) k - s.z_pred_r k) := rfl

theorem normAngle_ten : normAngle 10 = 10 - 4 * mPi := by
  have h1 : mPi < 10 := by norm_num [mPi]
  have h2 : mPi < 10 - 2 * mPi := by norm_num [mPi]
  have h3 : ¬ mPi < 10 - 2 * mPi - 2 * mPi := by norm_num [mPi]
  have h4 : ¬ 10 - 2 * mPi - 2 * mPi < -mPi := by norm_num [mPi]
  rw [normAngle]
  rw [angleSubLoop, dif_pos h1]
  rw [angleSubLoop, dif_pos h2]
  rw [angleSubLoop, dif_neg h3]
  rw [angleAddLoop, dif_neg h4]
  ring

theorem processMeasurement_uninit (fns : MathFns) (m : MeasPackage) (s : UKFData)
    (hi : s.is_initialized = false) :
    processMeasurement fns m s = initializeUKF fns m s := by
  rw [processMeasurement, hi]
  simp

theorem initializeUKF_Xsig_pred (fns : MathFns) (m : MeasPackage) (s : UKFData) :
    (initializeUKF fns m s).Xsig_pred = s.Xsig_pred := rfl

/-- C2: for any square-root routine with sqrt 0 = 0, the divisor of the
radar range-rate projection is exactly sqrt(px^2+py^2), which is 0 at
px = py = 0: the projected range rate divides by it unguarded, and no
positive epsilon bounds the divisor from below, refuting the claimed
epsilon floor. -/
theorem C2_radar_divisor_unguarded (fns : MathFns) (h0 : fns.sqrtF 0 = 0) :
    radarDivisor fns 0 0 = 0
  ∧ (∀ col : Fin 5 → ℚ, radarProject fns col 2 =
      (col 0 * (fns.cosF (col 3) * col 2) + col 1 * (fns.sinF (col 3) * col 2)) /
        radarDivisor fns (col 0) (col 1))
  ∧ ¬ ∃ eps : ℚ, 0 < eps ∧ ∀ p_x p_y : ℚ, eps ≤ radarDivisor fns p_x p_y := by
  have hz : radarDivisor fns 0 0 = 0 := by
    rw [radarDivisor]
    norm_num [h0]
  refine ⟨hz, fun col => rfl, ?_⟩
  rintro ⟨eps, heps, hall⟩
  have h := hall 0 0
  rw [hz] at h
  linarith

/-- C2 witness: the theorem applied at the concrete routines fnsA. -/
theorem C2_radar_divisor_unguarded_w :
    fnsA.sqrtF 0 = 0
  ∧ (radarDivisor fnsA 0 0 = 0
     ∧ (∀ col : Fin 5 → ℚ, radarProject fnsA col 2 =
         (col 0 * (fnsA.cosF (col 3) * col 2) + col 1 * (fnsA.sinF (col 3) * col 2)) /
           radarDivisor fnsA (col 0) (col 1))
     ∧ ¬ ∃ eps : ℚ, 0 < eps ∧ ∀ p_x p_y : ℚ, eps ≤ radarDivisor fnsA p_x p_y) :=
  ⟨rfl, C2_radar_divisor_unguarded fnsA rfl⟩

/-- C8: for every spreading parameter lam with lam + 7 nonzero (n_aug = 7),
the constructed weight vector has weight 0 = lam/(lam+7), the other 14
weights 1/(2(lam+7)), and the weights sum to exactly 1. -/
theorem C8_weights_construction (lam : ℚ) (h : lam + 7 ≠ 0) :
    initWeights lam 0 = lam / (lam + 7)
  ∧ (∀ i : Fin 15, i ≠ 0 → initWeights lam i = 1 / (2 * (lam + 7)))
  ∧ ∑ i : Fin 15, initWeights lam i = 1 := by
  have h2 : (7 : ℚ) + lam ≠ 0 := fun hc => h (by linarith)
  refine ⟨initWeights_zero lam, ?_, sum_initWeights lam h⟩
  intro i hi
  simp only [initWeights, if_neg hi]
  field_simp
  ring

/-- C8 witness: the theorem applied at the code's own spreading parameter
lambda_ = -2. -/
theorem C8_weights_construction_w :
    (lambda_ + 7 ≠ 0)
  ∧ (initWeights lambda_ 0 = lambda_ / (lambda_ + 7)
     ∧ (∀ i : Fin 15, i ≠ 0 → initWeights lambda_ i = 1 / (2 * (lambda_ + 7)))
     ∧ ∑ i : Fin 15, initWeights lambda_ i = 1) :=
  ⟨by norm_num [lambda_], C8_weights_construction lambda_ (by norm_num [lambda_])⟩

/-- C7: every predicted sigma point takes the general CTRV branch exactly
when |yaw rate| > 0.001 and the singularity-guard branch otherwise; in
both branches speed, heading and yaw rate propagate as stated, and the
process-noise contributions are added as stated. -/
theorem C7_ctrv_propagation_branches (fns : MathFns) (delta_t : ℚ) (s : UKFData) (c : Fin 15) :
    ((sigmaPointPrediction fns delta_t s).Xsig_pred 0 c =
      (if |s.Xsig_aug 4 c| > 0.001 then
        s.Xsig_aug 0 c + s.Xsig_aug 2 c / s.Xsig_aug 4 c *
          (fns.sinF (s.Xsig_aug 3 c + s.Xsig_aug 4 c * delta_t) - fns.sinF (s.Xsig_aug 3 c))
      else
        s.Xsig_aug 0 c + s.Xsig_aug 2 c * delta_t * fns.cosF (s.Xsig_aug 3 c))
      + 0.5 * s.Xsig_aug 5 c * delta_t * delta_t * fns.cosF (s.Xsig_aug 3 c))
  ∧ ((sigmaPointPrediction fns delta_t s).Xsig_pred 1 c =
      (if |s.Xsig_aug 4 c| > 0.001 then
        s.Xsig_aug 1 c + s.Xsig_aug 2 c / s.Xsig_aug 4 c *
          (fns.cosF (s.Xsig_aug 3 c) - fns.cosF (s.Xsig_aug 3 c + s.Xsig_aug 4 c * delta_t))
      else
        s.Xsig_aug 1 c + s.Xsig_aug 2 c * delta_t * fns.sinF (s.Xsig_aug 3 c))
      + 0.5 * s.Xsig_aug 5 c * delta_t * delta_t * fns.sinF (s.Xsig_aug 3 c))
  ∧ ((sigmaPointPrediction fns delta_t s).Xsig_pred 2 c =
      s.Xsig_aug 2 c + s.Xsig_aug 5 c * delta_t)
  ∧ ((sigmaPointPrediction fns delta_t s).Xsig_pred 3 c =
      s.Xsig_aug 3 c + s.Xsig_aug 4 c * delta_t + 0.5 * s.Xsig_aug 6 c * delta_t * delta_t)
  ∧ ((sigmaPointPrediction fns delta_t s).Xsig_pred 4 c =
      s.Xsig_aug 4 c + s.Xsig_aug 6 c * delta_t) := by
  rw [sigPred_Xsig_pred]
  exact ⟨ctrvPoint_zero fns delta_t _, ctrvPoint_one fns delta_t _, ctrvPoint_two fns delta_t _,
    ctrvPoint_three fns delta_t _, ctrvPoint_four fns delta_t _⟩

theorem fin5_val3 (r : Fin 5) (h : r.val = 3) : r = 3 := by
  apply Fin.ext
  rw [h]
  rfl

/-- C9 amended: the radar update's cross-correlation equals the
specification's normalized form (both deviations angle-normalized), while
the lidar update's cross-correlation uses raw deviations and agrees with
the normalized form only when every heading deviation already lies in
[-pi, pi]. -/
theorem C9_cross_correlation_amended (w : Fin 15 → ℚ) (Xp : Fin 5 → Fin 15 → ℚ) (x : Fin 5 → ℚ)
    (Zs2 : Fin 2 → Fin 15 → ℚ) (zp2 : Fin 2 → ℚ)
    (Zs3 : Fin 3 → Fin 15 → ℚ) (zp3 : Fin 3 → ℚ)
    (hb : ∀ i : Fin 15, -mPi ≤ Xp 3 i - x 3 ∧ Xp 3 i - x 3 ≤ mPi) :
    radarCrossCorr w Xp x Zs3 zp3 = specRadarCrossCorr w Xp x Zs3 zp3
  ∧ lidarCrossCorr w Xp x Zs2 zp2 = specLidarCrossCorr w Xp x Zs2 zp2 := by
  constructor
  · rfl
  · funext r c
    simp only [lidarCrossCorr, specLidarCrossCorr]
    apply Finset.sum_congr rfl
    intro i _
    by_cases hr : r.val = 3
    · have hr3 : r = 3 := fin5_val3 r hr
      subst hr3
      rw [if_pos (show ((3 : Fin 5)).val = 3 from rfl)]
      rw [normAngle_id _ (hb i).1 (hb i).2]
    · rw [if_neg hr]

set_option maxHeartbeats 2000000

theorem normAngle_one : normAngle 1 = 1 :=
  normAngle_id 1 (by norm_num [mPi]) (by norm_num [mPi])

/-- C3: at a radar cycle whose predicted measurement covariance S_r is the
zero matrix (provably not invertible), the update still computes a gain
from whatever the external inverse routine returns and overwrites the
state (x 0 moves from 0 to -2/5): no SingularCovariance failure result is
surfaced and the prior estimate is not retained. -/
theorem C3_singular_covariance_not_surfaced :
    (∀ B : Fin 3 → Fin 3 → ℚ, matMul3 sC.S_r B ≠ idMat3)
  ∧ sC.x 0 = 0
  ∧ (updateRadar fnsC mRadC sC).x 0 = -(2/5) := by
  refine ⟨?_, rfl, ?_⟩
  · intro B h
    have h00 := congrFun (congrFun h 0) 0
    simp only [matMul3, idMat3, sC, mkUKF] at h00
    norm_num [Fin.sum_univ_succ] at h00
  · rw [updateRadar_x]
    norm_num [fnsC, mRadC, sC, mkUKF, radarCrossCorr, Fin.sum_univ_succ,
      initWeights_zero, initWeights_succ, lambda_, Fin.val_succ, normAngle_zero,
      normAngle_one]

/-- C9 counterexample: at a concrete input with a heading deviation of 10
rad, the lidar update's cross-correlation differs from the
specification's angle-normalized form: the code applies no normalization
in the lidar Tc loop. -/
theorem C9_lidar_tc_unnormalized_cx :
    lidarCrossCorr wC9 XpC9 xC9 ZsC9 zpC9 ≠ specLidarCrossCorr wC9 XpC9 xC9 ZsC9 zpC9 := by
  intro h
  have h30 := congrFun (congrFun h ⟨3, by omega⟩) ⟨0, by omega⟩
  norm_num [lidarCrossCorr, specLidarCrossCorr, wC9, XpC9, xC9, ZsC9, zpC9,
    initWeights_zero, initWeights_succ, lambda_, Fin.sum_univ_succ, Fin.val_succ,
    normAngle_ten, normAngle_zero, mPi] at h30

/-- C6: on the first measurement the filter only initializes (the result is
exactly InitializeUKF's, no Predict or Update runs): a LIDAR first
measurement [1, 2] gives x = [1, 2, 0, 0, 0] and the fixed prior P; a
RADAR first measurement [rho = 5, phi = 0, rhodot = 0] gives
x = [5, 0, 0, 0, 0] by polar-to-Cartesian conversion, for any cosine and
sine routines exact at 0. -/
theorem C6_first_measurement_initializes (fns : MathFns) (s : UKFData) (tsL tsR : ℤ)
    (hc1 : fns.cosF 0 = 1) (hs0 : fns.sinF 0 = 0) (hi : s.is_initialized = false) :
    (processMeasurement fns ⟨SensorTy.laser, tsL, ![1, 2, 0]⟩ s
        = initializeUKF fns ⟨SensorTy.laser, tsL, ![1, 2, 0]⟩ s)
  ∧ (processMeasurement fns ⟨SensorTy.laser, tsL, ![1, 2, 0]⟩ s).x = ![1, 2, 0, 0, 0]
  ∧ (processMeasurement fns ⟨SensorTy.laser, tsL, ![1, 2, 0]⟩ s).P
      = ![![1, 0, 0, 0, 0], ![0, 1, 0, 0, 0], ![0, 0, 1, 0, 0],
          ![0, 0, 0, 0.5, 0], ![0, 0, 0, 0, 0.5]]
  ∧ (processMeasurement fns ⟨SensorTy.laser, tsL, ![1, 2, 0]⟩ s).Xsig_pred = s.Xsig_pred
  ∧ (processMeasurement fns ⟨SensorTy.radar, tsR, ![5, 0, 0]⟩ s
        = initializeUKF fns ⟨SensorTy.radar, tsR, ![5, 0, 0]⟩ s)
  ∧ (processMeasurement fns ⟨SensorTy.radar, tsR, ![5, 0, 0]⟩ s).x = ![5, 0, 0, 0, 0] := by
  have hL := processMeasurement_uninit fns ⟨SensorTy.laser, tsL, ![1, 2, 0]⟩ s hi
  have hR := processMeasurement_uninit fns ⟨SensorTy.radar, tsR, ![5, 0, 0]⟩ s hi
  refine ⟨hL, ?_, ?_, ?_, hR, ?_⟩
  · rw [hL, initializeUKF]
    norm_num
  · rw [hL, initializeUKF]
  · rw [hL, initializeUKF_Xsig_pred]
  · rw [hR, initializeUKF]
    norm_num
    funext i
    fin_cases i
    · show fns.cosF 0 * 5 = (![5, 0, 0, 0, 0] : Fin 5 → ℚ) 0
      rw [hc1]
      norm_num
    · show fns.sinF 0 * 5 = (![5, 0, 0, 0, 0] : Fin 5 → ℚ) 1
      rw [hs0]
      norm_num
    · rfl
    · rfl
    · rfl

/-- C6 witness: the theorem applied at the concrete routines fnsA and the
freshly constructed filter. -/
theorem C6_first_measurement_initializes_w :
    fnsA.cosF 0 = 1 ∧ fnsA.sinF 0 = 0 ∧ mkUKF.is_initialized = false
  ∧ ((processMeasurement fnsA ⟨SensorTy.laser, 0, ![1, 2, 0]⟩ mkUKF
        = initializeUKF fnsA ⟨SensorTy.laser, 0, ![1, 2, 0]⟩ mkUKF)
     ∧ (processMeasurement fnsA ⟨SensorTy.laser, 0, ![1, 2, 0]⟩ mkUKF).x = ![1, 2, 0, 0, 0]
     ∧ (processMeasurement fnsA ⟨SensorTy.laser, 0, ![1, 2, 0]⟩ mkUKF).P
         = ![![1, 0, 0, 0, 0], ![0, 1, 0, 0, 0], ![0, 0, 1, 0, 0],
             ![0, 0, 0, 0.5, 0], ![0, 0, 0, 0, 0.5]]
     ∧ (processMeasurement fnsA ⟨SensorTy.laser, 0, ![1, 2, 0]⟩ mkUKF).Xsig_pred = mkUKF.Xsig_pred
     ∧ (processMeasurement fnsA ⟨SensorTy.radar, 0, ![5, 0, 0]⟩ mkUKF
         = initializeUKF fnsA ⟨SensorTy.radar, 0, ![5, 0, 0]⟩ mkUKF)
     ∧ (processMeasurement fnsA ⟨SensorTy.radar, 0, ![5, 0, 0]⟩ mkUKF).x = ![5, 0, 0, 0, 0]) :=
  ⟨rfl, rfl, rfl, C6_first_measurement_initializes fnsA mkUKF 0 0 rfl rfl rfl⟩

/-- C9 witness: the amended theorem applied at all-zero concrete inputs. -/
theorem C9_cross_correlation_amended_w :
    (∀ i : Fin 15, -mPi ≤ zeroXp 3 i - zeroX5 3 ∧ zeroXp 3 i - zeroX5 3 ≤ mPi)
  ∧ (radarCrossCorr zeroW15 zeroXp zeroX5 zeroZs3 zeroZp3
       = specRadarCrossCorr zeroW15 zeroXp zeroX5 zeroZs3 zeroZp3
     ∧ lidarCrossCorr zeroW15 zeroXp zeroX5 zeroZs2 zeroZp2
       = specLidarCrossCorr zeroW15 zeroXp zeroX5 zeroZs2 zeroZp2) :=
  have hb : ∀ i : Fin 15, -mPi ≤ zeroXp 3 i - zeroX5 3 ∧ zeroXp 3 i - zeroX5 3 ≤ mPi :=
    fun _ => ⟨by norm_num [zeroXp, zeroX5, mPi], by norm_num [zeroXp, zeroX5, mPi]⟩
  ⟨hb, C9_cross_correlation_amended zeroW15 zeroXp zeroX5 zeroZs2 zeroZp2 zeroZs3 zeroZp3 hb⟩

/-- C5 amended: use_laser and use_radar are never consulted:
ProcessMeasurement carries the flags through unchanged and computes the
same result whatever their values. -/
theorem C5_flags_never_consulted (fns : MathFns) (m : MeasPackage) (s : UKFData) (a b : Bool) :
    processMeasurement fns m { s with use_laser := a, use_radar := b }
      = { processMeasurement fns m s with use_laser := a, use_radar := b } := by
  obtain ⟨sen, ts, raw⟩ := m
  obtain ⟨i, ul, ur, xx, PP, t, Xa, Xp, w, zr, Sr, Zr, Zl, zl, Sl⟩ := s
  cases i <;> cases sen <;> rfl
